import Mathlib

/-!
# SeetaFace JNI bridge: registry, liveness default, similarity and quality scores

Shallow embedding of `src/main/cpp/seetaface_jni.cpp` (the real backend) and
`src/main/jni/seetaface_jni_mock.cpp` (the mock backend).

Modelling conventions.

* `jlong` / `jint` values are `Int`; the engine table is a list of optional
  engines (a `std::unique_ptr` is `none` when null).
* `jfloat` values are exact rationals: a literal such as `0.8f` is read as `4/5`, and
  `*`, `/` are exact.  Where the code rounds to single precision before a
  comparison (the aspect ratio), the rounding is a parameter `fl`; the definitions
  without that parameter are the instance in which nothing is rounded.
* An `int` cast to `float` and stored in a result array is kept as the integer it
  was cast from (`FloatCell.cast`).
* The mock's similarity is written once, over an ordered field with a given
  square-root function, and is studied over the reals with `Real.sqrt`.  Its final
  division can have a zero divisor; the quotient is then a NaN or an infinity
  (`JFloat`), as in IEEE arithmetic.
* A C++ exception is the `error` of `Except String`; dereferencing a null
  `unique_ptr` is undefined behaviour and is the `none` of the outer `Option`
  returned by the operations that can reach one.
* JNI array marshaling is value passing: a `jbyteArray` is a `List Int`, a
  `jfloatArray` result is an `Option (List ℚ)` (`none` is `nullptr`).
-/

namespace SeetaFace

/-! ## Values crossing the boundary -/

/-- Java string reference as received through JNI: `none` is a null reference. -/
abbrev JString := Option String

/-- Conversion `jstring2string`: a null reference gives the empty string. -/
def jstring2string (jStr : JString) : String :=
  match jStr with
  | none => ""
  | some s => s

/-- Image descriptor `seeta::cv::ImageData` as filled in by `convertToImageData`. -/
structure ImageData where
  width : Int
  height : Int
  channels : Int
  data : List Int
deriving DecidableEq

/-- Helper `convertToImageData` of the real backend. -/
def convertToImageData (imageData : List Int) (width height channels : Int) : ImageData :=
  { width := width, height := height, channels := channels, data := imageData }

/-- Face rectangle `seeta::cv::Rect`. -/
structure Rect where
  x : Int
  y : Int
  width : Int
  height : Int
deriving DecidableEq

/-- Face found by the detector (`SeetaFaceInfo`): position and detector score. -/
structure SeetaFaceInfo where
  pos : Rect
  score : ℚ
deriving DecidableEq

/-! ## Vendor library

The `seeta/*.h` headers are a third-party library and not part of the
repository.  A component is represented by the model setting it was built
from; what the vendor code computes is a parameter of the model. -/

/-- Device selector of `seeta::ModelSetting`. -/
inductive Device where
  | AUTO
  | CPU
  | GPU
deriving DecidableEq

/-- Settings object `seeta::ModelSetting`: model files appended so far and the device. -/
structure ModelSetting where
  models : List String := []
  device : Device := Device.AUTO
deriving DecidableEq

/-- Member `ModelSetting::append`. -/
def ModelSetting.append (s : ModelSetting) (path : String) : ModelSetting :=
  { s with models := s.models ++ [path] }

/-- Member `ModelSetting::set_device`. -/
def ModelSetting.set_device (s : ModelSetting) (d : Device) : ModelSetting :=
  { s with device := d }

/-- Detector object `seeta::FaceDetector`. -/
structure FaceDetector where
  setting : ModelSetting
deriving DecidableEq

/-- Landmarker object `seeta::FaceLandmarker`. -/
structure FaceLandmarker where
  setting : ModelSetting
deriving DecidableEq

/-- Recognizer object `seeta::FaceRecognizer`. -/
structure FaceRecognizer where
  setting : ModelSetting
deriving DecidableEq

/-- Anti-spoofing object `seeta::FaceAntiSpoofing`. -/
structure FaceAntiSpoofing where
  setting : ModelSetting
deriving DecidableEq

/-- Quality assessor object `seeta::QualityAssessor` (declared in the engine, never built). -/
structure QualityAssessor where
  setting : ModelSetting
deriving DecidableEq

/-- Behaviour of the vendor library.  Constructors and calls may throw, which is
the `error` case carrying `e.what()`. -/
structure Seeta where
  newFaceDetector : ModelSetting → Except String FaceDetector
  newFaceLandmarker : ModelSetting → Except String FaceLandmarker
  newFaceRecognizer : ModelSetting → Except String FaceRecognizer
  newFaceAntiSpoofing : ModelSetting → Except String FaceAntiSpoofing
  detect : FaceDetector → ImageData → Except String (List SeetaFaceInfo)
  mark : FaceLandmarker → ImageData → Rect → Except String (List (ℚ × ℚ))
  Extract : FaceRecognizer → ImageData → List (ℚ × ℚ) → Except String (List ℚ)
  similarity : List ℚ → List ℚ → Except String ℚ
  Predict : FaceAntiSpoofing → ImageData → Rect → Except String ℚ

/-! ## Real backend: engine registry -/

/-- Engine record `SeetaFaceEngine`; a `none` component is a null `unique_ptr`. -/
structure SeetaFaceEngine where
  detector : Option FaceDetector := none
  landmarker : Option FaceLandmarker := none
  recognizer : Option FaceRecognizer := none
  antiSpoofing : Option FaceAntiSpoofing := none
  qualityAssessor : Option QualityAssessor := none
  initialized : Bool := false
  lastError : String := ""
deriving DecidableEq

/-- Process-wide state of the real backend: the `engines` vector and `globalLastError`. -/
structure State where
  engines : List (Option SeetaFaceEngine) := []
  globalLastError : String := ""
deriving DecidableEq

/-- State at load time: both statics default-constructed. -/
def State.initial : State := {}

/-- Body of the `try` block of `initializeEngine` up to `engine->initialized = true`
(lines 74-108): the first constructor that throws aborts the construction. -/
def buildEngine (V : Seeta) (detectorModelPath landmarkModelPath recognizerModelPath
    antiSpoofingModelPath : JString) : Except String SeetaFaceEngine := do
  let engine : SeetaFaceEngine := {}
  let detectorPath := jstring2string detectorModelPath
  let landmarkPath := jstring2string landmarkModelPath
  let recognizerPath := jstring2string recognizerModelPath
  let antiSpoofPath := jstring2string antiSpoofingModelPath
  let detectorSetting := (ModelSetting.append {} detectorPath).set_device Device.CPU
  let detector ← V.newFaceDetector detectorSetting
  let engine := { engine with detector := some detector }
  let landmarkSetting := (ModelSetting.append {} landmarkPath).set_device Device.CPU
  let landmarker ← V.newFaceLandmarker landmarkSetting
  let engine := { engine with landmarker := some landmarker }
  let recognizerSetting := (ModelSetting.append {} recognizerPath).set_device Device.CPU
  let recognizer ← V.newFaceRecognizer recognizerSetting
  let engine := { engine with recognizer := some recognizer }
  let engine ←
    if antiSpoofPath ≠ "" then do
      let antiSpoofSetting := (ModelSetting.append {} antiSpoofPath).set_device Device.CPU
      let antiSpoofing ← V.newFaceAntiSpoofing antiSpoofSetting
      pure { engine with antiSpoofing := some antiSpoofing }
    else pure engine
  pure { engine with initialized := true }

/-- Entry point `initializeEngine` (lines 69-118): on success the engine is pushed
at the back of the table and `engines.size() - 1` is returned; on an exception the
table is untouched, the message is stored and `-1` is returned. -/
def initializeEngine (V : Seeta) (st : State) (detectorModelPath landmarkModelPath
    recognizerModelPath antiSpoofingModelPath : JString) : Int × State :=
  match buildEngine V detectorModelPath landmarkModelPath recognizerModelPath
      antiSpoofingModelPath with
  | .ok engine =>
    let engines := st.engines ++ [some engine]
    ((engines.length : Int) - 1, { st with engines := engines })
  | .error what =>
    (-1, { st with globalLastError := "Failed to initialize SeetaFace6 engine: " ++ what })

/-- Entry point `releaseEngine` (lines 125-135): an in-range slot is reset to null,
anything else is left alone.  Nothing in the `try` block throws. -/
def releaseEngine (st : State) (engineHandle : Int) : State :=
  if engineHandle ≥ 0 ∧ engineHandle < (st.engines.length : Int) then
    { st with engines := st.engines.set engineHandle.toNat none }
  else st

/-- Guard shared by `detectFaces`, `extractFaceEncoding` and `detectLiveness`:
`engineHandle < 0 || engineHandle >= engines.size() || !engines[engineHandle] ||
!engines[engineHandle]->initialized`, evaluated left to right. -/
def invalidHandle (st : State) (engineHandle : Int) : Bool :=
  decide (engineHandle < 0) || decide (engineHandle ≥ (st.engines.length : Int)) ||
    (match st.engines[engineHandle.toNat]? with
     | some (some engine) => !engine.initialized
     | _ => true)

/-- Engine designated by a handle that passed the guard. -/
def engineAt (st : State) (engineHandle : Int) : Option SeetaFaceEngine :=
  (st.engines[engineHandle.toNat]?).join

/-- Element of the `jfloatArray` built by `detectFaces`: `cast n` is
`static_cast<float>(n)` for the integer `n`, `value q` is a float delivered by the
detector. -/
inductive FloatCell where
  | cast (n : Int)
  | value (q : ℚ)
deriving DecidableEq

/-- Flat result of `detectFaces`: five values per face. -/
def flattenFaces (faces : List SeetaFaceInfo) : List FloatCell :=
  faces.foldl (fun results face =>
    results ++ [FloatCell.cast face.pos.x, FloatCell.cast face.pos.y,
      FloatCell.cast face.pos.width, FloatCell.cast face.pos.height,
      FloatCell.value face.score]) []

/-- Entry point `detectFaces` (lines 142-180).  The outer `none` is the undefined
behaviour of calling through a null detector. -/
def detectFaces (V : Seeta) (st : State) (engineHandle : Int) (imageData : List Int)
    (width height channels : Int) : Option (Option (List FloatCell) × State) :=
  if invalidHandle st engineHandle then
    some (none, { st with globalLastError := "Invalid engine handle" })
  else
    match engineAt st engineHandle with
    | none => none
    | some engine =>
      let image := convertToImageData imageData width height channels
      match engine.detector with
      | none => none
      | some detector =>
        match V.detect detector image with
        | .ok faces => some (some (flattenFaces faces), st)
        | .error what =>
          some (none, { st with globalLastError := "Face detection failed: " ++ what })

/-- Entry point `extractFaceEncoding` (lines 187-222). -/
def extractFaceEncoding (V : Seeta) (st : State) (engineHandle : Int) (imageData : List Int)
    (width height channels faceX faceY faceWidth faceHeight : Int) :
    Option (Option (List ℚ) × State) :=
  if invalidHandle st engineHandle then
    some (none, { st with globalLastError := "Invalid engine handle" })
  else
    match engineAt st engineHandle with
    | none => none
    | some engine =>
      let image := convertToImageData imageData width height channels
      let faceRect : Rect := { x := faceX, y := faceY, width := faceWidth, height := faceHeight }
      match engine.landmarker with
      | none => none
      | some landmarker =>
        match V.mark landmarker image faceRect with
        | .error what =>
          some (none, { st with globalLastError := "Face encoding extraction failed: " ++ what })
        | .ok landmarks =>
          match engine.recognizer with
          | none => none
          | some recognizer =>
            match V.Extract recognizer image landmarks with
            | .ok encoding => some (some encoding, st)
            | .error what =>
              some (none,
                { st with globalLastError := "Face encoding extraction failed: " ++ what })

/-- Entry point `compareFaceEncodings` of the real backend (lines 229-256). -/
def compareFaceEncodings (V : Seeta) (st : State) (encoding1 encoding2 : List ℚ) : ℚ × State :=
  if encoding1.length ≠ encoding2.length then
    (0, { st with globalLastError := "Encoding lengths do not match" })
  else
    match V.similarity encoding1 encoding2 with
    | .ok similarity => (similarity, st)
    | .error what =>
      (0, { st with globalLastError := "Face encoding comparison failed: " ++ what })

/-- Entry point `detectLiveness` (lines 263-294). -/
def detectLiveness (V : Seeta) (st : State) (engineHandle : Int) (imageData : List Int)
    (width height channels faceX faceY faceWidth faceHeight : Int) : Option (ℚ × State) :=
  if invalidHandle st engineHandle then
    some (0, { st with globalLastError := "Invalid engine handle" })
  else
    match engineAt st engineHandle with
    | none => none
    | some engine =>
      match engine.antiSpoofing with
      | none => some (1, { st with globalLastError := "Anti-spoofing not initialized" })
      | some antiSpoofing =>
        let image := convertToImageData imageData width height channels
        let faceRect : Rect := { x := faceX, y := faceY, width := faceWidth, height := faceHeight }
        match V.Predict antiSpoofing image faceRect with
        | .ok score => some (score, st)
        | .error what =>
          some (0, { st with globalLastError := "Liveness detection failed: " ++ what })

/-- Entry point `getLastError` of the real backend. -/
def getLastError (st : State) : String × State :=
  (st.globalLastError, st)

/-! ## Quality heuristics -/

/-- Comparison `aspectRatio < 0.5f || aspectRatio > 2.0f` for
`aspectRatio = static_cast<float>(width) / height`, with the cast and the quotient
taken exactly (the rounding to single precision is explicit in
`aspectOutOfRangeWith` below).  With `height = 0` the float
quotient is an infinity when `width` is non-zero (out of range) and a NaN when
`width = 0` (both comparisons false). -/
def aspectOutOfRange (width height : Int) : Bool :=
  if height = 0 then decide (width ≠ 0)
  else
    let aspectRatio : ℚ := (width : ℚ) / (height : ℚ)
    decide (aspectRatio < 1 / 2) || decide (aspectRatio > 2)

/-- Score computed by the real backend's `assessImageQuality` (lines 309-322), in
exact arithmetic. -/
def qualityScore (width height : Int) : ℚ :=
  let quality : ℚ := 1
  let quality :=
    if width < 100 ∨ height < 100 then quality * (1 / 2)
    else if width < 200 ∨ height < 200 then quality * (4 / 5)
    else quality
  let quality := if aspectOutOfRange width height then quality * (7 / 10) else quality
  quality

/-- Entry point `assessImageQuality` of the real backend (lines 301-328), in exact
arithmetic: the image descriptor is built and released, the score depends on the
dimensions, and no statement of the `try` block throws, so the error state is not
written. -/
def assessImageQuality (st : State) (imageData : List Int) (width height channels : Int) :
    ℚ × State :=
  let _image := convertToImageData imageData width height channels
  (qualityScore width height, st)

/-- Comparison of lines 316-317 with the rounding to single precision explicit:
`fl` rounds a rational to the nearest `float`.  The cast `static_cast<float>(width)`
is `fl width`, the divisor is `height` converted to `float`, and the quotient is
rounded again.  A zero divisor gives an infinity (out of range) unless the dividend
is zero too, which gives a NaN (both comparisons false). -/
def aspectOutOfRangeWith (fl : ℚ → ℚ) (width height : Int) : Bool :=
  let dividend : ℚ := fl (width : ℚ)
  let divisor : ℚ := fl (height : ℚ)
  if divisor = 0 then decide (dividend ≠ 0)
  else
    let aspectRatio : ℚ := fl (dividend / divisor)
    decide (aspectRatio < 1 / 2) || decide (aspectRatio > 2)

/-- Score of lines 309-322 with the aspect ratio rounded by `fl`. -/
def qualityScoreWith (fl : ℚ → ℚ) (width height : Int) : ℚ :=
  let quality : ℚ := 1
  let quality :=
    if width < 100 ∨ height < 100 then quality * (1 / 2)
    else if width < 200 ∨ height < 200 then quality * (4 / 5)
    else quality
  let quality :=
    if aspectOutOfRangeWith fl width height then quality * (7 / 10) else quality
  quality

/-- Entry point `assessImageQuality` of the real backend with the aspect ratio rounded
by `fl`. -/
def assessImageQualityWith (fl : ℚ → ℚ) (st : State) (imageData : List Int)
    (width height channels : Int) : ℚ × State :=
  let _image := convertToImageData imageData width height channels
  (qualityScoreWith fl width height, st)

/-! ## Histories of calls on the real backend -/

/-- One call through the boundary of the real backend, with its arguments. -/
inductive Op where
  | initializeEngine (detectorModelPath landmarkModelPath recognizerModelPath
      antiSpoofingModelPath : JString)
  | releaseEngine (engineHandle : Int)
  | detectFaces (engineHandle : Int) (imageData : List Int) (width height channels : Int)
  | extractFaceEncoding (engineHandle : Int) (imageData : List Int)
      (width height channels faceX faceY faceWidth faceHeight : Int)
  | compareFaceEncodings (encoding1 encoding2 : List ℚ)
  | detectLiveness (engineHandle : Int) (imageData : List Int)
      (width height channels faceX faceY faceWidth faceHeight : Int)
  | assessImageQuality (imageData : List Int) (width height channels : Int)
  | getLastError

/-- Effect of one call: the next state and, for an `initializeEngine` that did not
return `-1`, the handle it issued.  `none` when the call has undefined behaviour. -/
def step (V : Seeta) (st : State) : Op → Option (State × Option Int)
  | .initializeEngine d l r a =>
    let res := initializeEngine V st d l r a
    some (res.2, if res.1 = -1 then none else some res.1)
  | .releaseEngine h => some (releaseEngine st h, none)
  | .detectFaces h img w ht c => (detectFaces V st h img w ht c).map (fun res => (res.2, none))
  | .extractFaceEncoding h img w ht c fx fy fw fh =>
    (extractFaceEncoding V st h img w ht c fx fy fw fh).map (fun res => (res.2, none))
  | .compareFaceEncodings e1 e2 => some ((compareFaceEncodings V st e1 e2).2, none)
  | .detectLiveness h img w ht c fx fy fw fh =>
    (detectLiveness V st h img w ht c fx fy fw fh).map (fun res => (res.2, none))
  | .assessImageQuality img w ht c => some ((assessImageQuality st img w ht c).2, none)
  | .getLastError => some ((getLastError st).2, none)

/-- Run a history of calls from a state: the final state and the handles issued,
oldest first. -/
def run (V : Seeta) : List Op → State → Option (State × List Int)
  | [], st => some (st, [])
  | op :: ops, st =>
    match step V st op with
    | none => none
    | some (st1, issued) =>
      match run V ops st1 with
      | none => none
      | some (st2, rest) => some (st2, issued.toList ++ rest)

/-! ## Registry invariant -/

/-- Engine with its three mandatory components present. -/
def engineComplete (engine : SeetaFaceEngine) : Bool :=
  engine.detector.isSome && engine.landmarker.isSome && engine.recognizer.isSome

/-- Registry in which every occupied slot holds a complete engine: the operations
then never call through a null component. -/
def wellFormed (st : State) : Prop :=
  ∀ engine, some engine ∈ st.engines → engineComplete engine = true

/-! ## Single-precision results that may be non-finite -/

/-- Result of a `float` division: a finite value, an infinity or a NaN. -/
inductive JFloat (α : Type) where
  | val (x : α)
  | posInf
  | negInf
  | nan

namespace JFloat

/-- Quotient `x / y` of two finite floats whose divisor is not negative (a zero
divisor is `+0`): `0 / 0` is a NaN, a non-zero dividend over zero is the infinity of
its sign. -/
def div {α : Type} [LinearOrderedField α] (x y : α) : JFloat α :=
  if y = 0 then
    if x = 0 then nan else if 0 < x then posInf else negInf
  else val (x / y)

/-- Expression `(similarity + 1.0f) / 2.0f`: infinities and NaN propagate. -/
def addOneHalve {α : Type} [LinearOrderedField α] : JFloat α → JFloat α
  | val x => val ((x + 1) / 2)
  | posInf => posInf
  | negInf => negInf
  | nan => nan

end JFloat

/-! ## Mock backend -/

namespace Mock

/-- Mock backend `assessImageQuality`: the image bytes and channel count are ignored. -/
def assessImageQuality (_imageData : List Int) (width height _channels : Int) : ℚ :=
  let quality : ℚ := 1
  let quality :=
    if width < 200 ∨ height < 200 then 3 / 5
    else if width < 400 ∨ height < 400 then 4 / 5
    else quality
  quality

/-- Process-wide state of the mock backend. -/
structure MockState where
  engineInitialized : Bool := false
  lastError : String := ""
deriving DecidableEq

/-- Loop of the mock `compareFaceEncodings` (lines 99-103) from the current index
on, over the remaining elements of both arrays: the accumulators are
`(dotProduct, norm1, norm2)`. -/
def accumulate {α : Type} [Field α] : List α → List α → α × α × α → α × α × α
  | x :: xs, y :: ys, (dotProduct, norm1, norm2) =>
    accumulate xs ys (dotProduct + x * y, norm1 + x * x, norm2 + y * y)
  | _, _, acc => acc

/-- Mock backend `compareFaceEncodings` (lines 81-111) over an ordered field `α` with
the square-root function `sqrt`. -/
def compareFaceEncodings {α : Type} [LinearOrderedField α] (sqrt : α → α) (st : MockState)
    (encoding1 encoding2 : List α) : JFloat α × MockState :=
  if encoding1.length ≠ encoding2.length then
    (JFloat.val 0, { st with lastError := "Encoding lengths do not match" })
  else
    let acc := accumulate encoding1 encoding2 (0, 0, 0)
    let dotProduct := acc.1
    let norm1 := acc.2.1
    let norm2 := acc.2.2
    let similarity := JFloat.div dotProduct (sqrt norm1 * sqrt norm2)
    (JFloat.addOneHalve similarity, st)

end Mock

/-! ## Reference semantics as worded in the specification -/

/-- Dot product `a·b` of two encodings. -/
def dot {α : Type} [Field α] (a b : List α) : α :=
  (List.zipWith (fun x y => x * y) a b).sum

/-- Cosine similarity `(a·b) / (|a|·|b|)` with `|a| = sqrt (a·a)`. -/
def cosine {α : Type} [Field α] (sqrt : α → α) (a b : List α) : α :=
  dot a b / (sqrt (dot a a) * sqrt (dot b b))

/-- Reference heuristic as worded in the specification: start at 1; multiply by
0.5 if both dimensions are below 100, else by 0.8 if either dimension is below
200; then multiply by 0.7 if `width / height` lies outside `[0.5, 2.0]`. -/
def referenceQuality (width height : Int) : ℚ :=
  let q : ℚ := 1
  let q :=
    if width < 100 ∧ height < 100 then q * (1 / 2)
    else if width < 200 ∨ height < 200 then q * (4 / 5)
    else q
  if (width : ℚ) / (height : ℚ) < 1 / 2 ∨ (width : ℚ) / (height : ℚ) > 2 then q * (7 / 10) else q

/-! ## A concrete vendor library and registry states for worked instances -/

/-- Vendor library in which every constructor succeeds, the detector finds nothing
and the anti-spoofing model answers one half. -/
def sampleSeeta : Seeta where
  newFaceDetector := fun s => .ok { setting := s }
  newFaceLandmarker := fun s => .ok { setting := s }
  newFaceRecognizer := fun s => .ok { setting := s }
  newFaceAntiSpoofing := fun s => .ok { setting := s }
  detect := fun _ _ => .ok []
  mark := fun _ _ _ => .ok []
  Extract := fun _ _ _ => .ok []
  similarity := fun _ _ => .ok 0
  Predict := fun _ _ _ => .ok (1 / 2)

/-- Engine that `sampleSeeta` builds from the paths `fd`, `fl`, `fr` and an empty
anti-spoofing path. -/
def sampleEngine : SeetaFaceEngine :=
  { detector := some { setting := { models := ["fd"], device := Device.CPU } }
    landmarker := some { setting := { models := ["fl"], device := Device.CPU } }
    recognizer := some { setting := { models := ["fr"], device := Device.CPU } }
    antiSpoofing := none
    qualityAssessor := none
    initialized := true
    lastError := "" }

/-- Registry with a single, released slot. -/
def sampleReleased : State := { engines := [none], globalLastError := "" }

/-- Registry with a single live engine. -/
def sampleLive : State := { engines := [some sampleEngine], globalLastError := "" }

/-- Registry with a released slot followed by a live engine. -/
def sampleTwo : State := { engines := [none, some sampleEngine], globalLastError := "" }

/-! ## Quality heuristics: results -/

/-- For a positive height, the aspect ratio lies outside `[1/2, 2]` exactly when
one dimension exceeds twice the other. -/
theorem aspect_outside_iff (width height : Int) (hh : 0 < height) :
    ((width : ℚ) / (height : ℚ) < 1 / 2 ∨ (width : ℚ) / (height : ℚ) > 2)
      ↔ (2 * width < height ∨ 2 * height < width) := by
  have hq : (0 : ℚ) < (height : ℚ) := by exact_mod_cast hh
  have h1 : ((width : ℚ) / (height : ℚ) < 1 / 2) ↔ 2 * width < height := by
    rw [div_lt_iff₀ hq]
    constructor
    · intro h
      have : (2 * width : ℚ) < (height : ℚ) := by linarith
      exact_mod_cast this
    · intro h
      have : (2 * width : ℚ) < (height : ℚ) := by exact_mod_cast h
      linarith
  have h2 : ((width : ℚ) / (height : ℚ) > 2) ↔ 2 * height < width := by
    rw [gt_iff_lt, lt_div_iff₀ hq]
    constructor
    · intro h
      exact_mod_cast h
    · intro h
      exact_mod_cast h
  rw [h1, h2]

/-- For a positive height the float comparison of the aspect ratio is a comparison
of integers. -/
theorem aspectOutOfRange_pos (width height : Int) (hh : 0 < height) :
    aspectOutOfRange width height = decide (2 * width < height ∨ 2 * height < width) := by
  have hne : height ≠ 0 := by omega
  have hiff := aspect_outside_iff width height hh
  unfold aspectOutOfRange
  simp only [hne, if_false]
  by_cases c : 2 * width < height ∨ 2 * height < width
  · rw [decide_eq_true c]
    rcases hiff.mpr c with h | h
    · rw [decide_eq_true h]
      rfl
    · rw [decide_eq_true h, Bool.or_true]
  · rw [decide_eq_false c]
    have hn := fun h => c (hiff.mp h)
    have n1 : ¬ ((width : ℚ) / (height : ℚ) < 1 / 2) := fun h => hn (Or.inl h)
    have n2 : ¬ ((width : ℚ) / (height : ℚ) > 2) := fun h => hn (Or.inr h)
    rw [decide_eq_false n1, decide_eq_false n2]
    rfl

/-- Closed form of the real backend's score for a positive height. -/
theorem qualityScore_pos (width height : Int) (hh : 0 < height) :
    qualityScore width height
      = (if width < 100 ∨ height < 100 then 1 / 2
          else if width < 200 ∨ height < 200 then 4 / 5 else 1)
        * (if 2 * width < height ∨ 2 * height < width then 7 / 10 else 1) := by
  unfold qualityScore
  rw [aspectOutOfRange_pos width height hh]
  by_cases a : width < 100 ∨ height < 100 <;>
    by_cases b : width < 200 ∨ height < 200 <;>
      by_cases c : 2 * width < height ∨ 2 * height < width <;>
        simp [a, b, c]

/-- C1 (as stated, refuted): at width 90 and height 150 the real backend halves the
score because one dimension is below 100, while the reference heuristic as worded
(both dimensions below 100) only applies the 0.8 penalty. -/
theorem assessImageQuality_differs_from_reference :
    (assessImageQuality State.initial [] 90 150 3).1 = 1 / 2 ∧
      referenceQuality 90 150 = 4 / 5 ∧
      (assessImageQuality State.initial [] 90 150 3).1 ≠ referenceQuality 90 150 := by
  have h1 : (assessImageQuality State.initial [] 90 150 3).1 = 1 / 2 := by
    show qualityScore 90 150 = 1 / 2
    rw [qualityScore_pos 90 150 (by norm_num)]
    norm_num
  have h2 : referenceQuality 90 150 = 4 / 5 := by
    unfold referenceQuality
    norm_num
  refine ⟨h1, h2, ?_⟩
  rw [h1, h2]
  norm_num

/-- C1 (amended): for positive width and height the real backend's
assessImageQuality returns 1, multiplied by 0.5 if either dimension is below 100,
else by 0.8 if either dimension is below 200, and then, independently, multiplied
by 0.7 if width / height lies outside [0.5, 2.0]; the error state is untouched. -/
theorem assessImageQuality_heuristic (st : State) (imageData : List Int)
    (width height channels : Int) (_hw : 0 < width) (hh : 0 < height) :
    (assessImageQuality st imageData width height channels).1
        = (1 : ℚ)
          * (if width < 100 ∨ height < 100 then 1 / 2
              else if width < 200 ∨ height < 200 then 4 / 5 else 1)
          * (if (width : ℚ) / (height : ℚ) < 1 / 2 ∨ (width : ℚ) / (height : ℚ) > 2
              then 7 / 10 else 1) ∧
      (assessImageQuality st imageData width height channels).2 = st := by
  refine ⟨?_, rfl⟩
  have hcond := aspect_outside_iff width height hh
  show qualityScore width height = _
  rw [qualityScore_pos width height hh, one_mul]
  by_cases c : 2 * width < height ∨ 2 * height < width
  · rw [if_pos c, if_pos (hcond.mpr c)]
  · rw [if_neg c, if_neg (fun h => c (hcond.mp h))]

/-- Witness for C1 (amended) at a 1000 x 100 image. -/
theorem assessImageQuality_heuristic_witness :
    (assessImageQuality State.initial [] 1000 100 3).1
        = (1 : ℚ)
          * (if (1000 : Int) < 100 ∨ (100 : Int) < 100 then 1 / 2
              else if (1000 : Int) < 200 ∨ (100 : Int) < 200 then 4 / 5 else 1)
          * (if ((1000 : Int) : ℚ) / ((100 : Int) : ℚ) < 1 / 2
                ∨ ((1000 : Int) : ℚ) / ((100 : Int) : ℚ) > 2
              then 7 / 10 else 1) ∧
      (assessImageQuality State.initial [] 1000 100 3).2 = State.initial :=
  assessImageQuality_heuristic State.initial [] 1000 100 3 (by decide) (by decide)

/-- C2 (as stated, refuted): for width 1000 and height 100 the real backend returns
0.56, not 0.7, because the height is below 200 and the 0.8 penalty applies too. -/
theorem assessImageQuality_1000_100_not_seven_tenths :
    (assessImageQuality State.initial [] 1000 100 3).1 = 14 / 25 ∧
      (assessImageQuality State.initial [] 1000 100 3).1 ≠ 7 / 10 := by
  have h1 : (assessImageQuality State.initial [] 1000 100 3).1 = 14 / 25 := by
    show qualityScore 1000 100 = 14 / 25
    rw [qualityScore_pos 1000 100 (by norm_num)]
    norm_num
  refine ⟨h1, ?_⟩
  rw [h1]
  norm_num

/-- C2 (amended): the real backend's assessImageQuality depends on width and height
only (not on the image bytes, the channel count or the registry state, which it
leaves unchanged), and gives 0.5 at (80, 80), 0.8 at (150, 300) and 0.56 at
(1000, 100). -/
theorem assessImageQuality_pure_examples :
    (∀ (st1 st2 : State) (imageData1 imageData2 : List Int)
        (width height channels1 channels2 : Int),
        (assessImageQuality st1 imageData1 width height channels1).1
          = (assessImageQuality st2 imageData2 width height channels2).1 ∧
        (assessImageQuality st1 imageData1 width height channels1).2 = st1) ∧
      (∀ (st : State) (imageData : List Int) (channels : Int),
        (assessImageQuality st imageData 80 80 channels).1 = 1 / 2 ∧
        (assessImageQuality st imageData 150 300 channels).1 = 4 / 5 ∧
        (assessImageQuality st imageData 1000 100 channels).1 = 14 / 25) := by
  refine ⟨fun _ _ _ _ _ _ _ _ => ⟨rfl, rfl⟩, fun st imageData channels => ⟨?_, ?_, ?_⟩⟩
  · show qualityScore 80 80 = 1 / 2
    rw [qualityScore_pos 80 80 (by norm_num)]
    norm_num
  · show qualityScore 150 300 = 4 / 5
    rw [qualityScore_pos 150 300 (by norm_num)]
    norm_num
  · show qualityScore 1000 100 = 14 / 25
    rw [qualityScore_pos 1000 100 (by norm_num)]
    norm_num

/-- C10 (as stated, refuted): at 80 x 80 the mock returns 0.6 and the real backend
returns 0.5. -/
theorem mock_quality_differs_at_80_80 :
    Mock.assessImageQuality [] 80 80 3 = 3 / 5 ∧
      (assessImageQuality State.initial [] 80 80 3).1 = 1 / 2 ∧
      Mock.assessImageQuality [] 80 80 3 ≠ (assessImageQuality State.initial [] 80 80 3).1 := by
  have h1 : Mock.assessImageQuality [] 80 80 3 = 3 / 5 := by
    unfold Mock.assessImageQuality
    norm_num
  have h2 : (assessImageQuality State.initial [] 80 80 3).1 = 1 / 2 := by
    show qualityScore 80 80 = 1 / 2
    rw [qualityScore_pos 80 80 (by norm_num)]
    norm_num
  refine ⟨h1, h2, ?_⟩
  rw [h1, h2]
  norm_num

/-- With nothing rounded, the aspect-ratio test is the exact one. -/
theorem aspectOutOfRangeWith_id (width height : Int) :
    aspectOutOfRangeWith id width height = aspectOutOfRange width height := by
  unfold aspectOutOfRangeWith aspectOutOfRange
  by_cases hz : height = 0
  · subst hz
    by_cases hw : width = 0
    · subst hw
      simp
    · have hq : (width : ℚ) ≠ 0 := by exact_mod_cast hw
      simp [hw, hq]
  · have hq : ¬ ((height : ℚ) = 0) := by exact_mod_cast hz
    simp only [id, hz, hq, if_false]

/-- With nothing rounded, the rounding-explicit entry point is the exact one. -/
theorem assessImageQualityWith_id (st : State) (imageData : List Int)
    (width height channels : Int) :
    assessImageQualityWith id st imageData width height channels
      = assessImageQuality st imageData width height channels := by
  unfold assessImageQualityWith assessImageQuality qualityScoreWith qualityScore
  rw [aspectOutOfRangeWith_id]

/-- The mock's score lies in the interval (0, 1]. -/
theorem mock_quality_range (imageData : List Int) (width height channels : Int) :
    0 < Mock.assessImageQuality imageData width height channels ∧
      Mock.assessImageQuality imageData width height channels ≤ 1 := by
  unfold Mock.assessImageQuality
  by_cases a2 : width < 200 ∨ height < 200 <;>
    by_cases a4 : width < 400 ∨ height < 400 <;>
      simp only [a2, a4, if_true, if_false] <;> norm_num

/-- The real backend's score lies in the interval (0, 1], whatever the rounding. -/
theorem qualityScoreWith_range (fl : ℚ → ℚ) (width height : Int) :
    0 < qualityScoreWith fl width height ∧ qualityScoreWith fl width height ≤ 1 := by
  unfold qualityScoreWith
  cases aspectOutOfRangeWith fl width height <;>
    by_cases a1 : width < 100 ∨ height < 100 <;>
      by_cases a2 : width < 200 ∨ height < 200 <;>
        simp only [a1, a2, if_true, if_false] <;> norm_num

/-- The two backends give the same score exactly on images with both dimensions at
least 400 on which the real backend's aspect-ratio test does not fire. -/
theorem mock_quality_eq_iff (fl : ℚ → ℚ) (imageData : List Int)
    (width height channels : Int) :
    Mock.assessImageQuality imageData width height channels = qualityScoreWith fl width height
      ↔ (400 ≤ width ∧ 400 ≤ height ∧ aspectOutOfRangeWith fl width height = false) := by
  unfold Mock.assessImageQuality qualityScoreWith
  cases aspectOutOfRangeWith fl width height <;>
    by_cases a1 : width < 100 ∨ height < 100 <;>
      by_cases a2 : width < 200 ∨ height < 200 <;>
        by_cases a4 : width < 400 ∨ height < 400 <;>
          simp only [a1, a2, a4, if_true, if_false] <;>
          norm_num <;> omega

/-- C10 (amended): for every positive width and height, and whatever the rounding to
single precision, the mock's assessImageQuality equals the real backend's exactly when
both dimensions are at least 400 and the real backend's aspect-ratio test does not
fire (both then return 1.0); with the quotient taken exactly that test passes when
height ≤ 2 * width and width ≤ 2 * height; in every case both scores lie in the
interval (0, 1]. -/
theorem mock_quality_agrees_iff (fl : ℚ → ℚ) (st : State) (imageData : List Int)
    (width height channels : Int) (_hw : 0 < width) (hh : 0 < height) :
    (Mock.assessImageQuality imageData width height channels
        = (assessImageQualityWith fl st imageData width height channels).1
      ↔ (400 ≤ width ∧ 400 ≤ height ∧ aspectOutOfRangeWith fl width height = false)) ∧
    (400 ≤ width ∧ 400 ≤ height ∧ aspectOutOfRangeWith fl width height = false →
      Mock.assessImageQuality imageData width height channels = 1 ∧
      (assessImageQualityWith fl st imageData width height channels).1 = 1) ∧
    (assessImageQualityWith id st imageData width height channels
        = assessImageQuality st imageData width height channels ∧
      (aspectOutOfRangeWith id width height = false
        ↔ (height ≤ 2 * width ∧ width ≤ 2 * height))) ∧
    (0 < Mock.assessImageQuality imageData width height channels ∧
      Mock.assessImageQuality imageData width height channels ≤ 1) ∧
    (0 < (assessImageQualityWith fl st imageData width height channels).1 ∧
      (assessImageQualityWith fl st imageData width height channels).1 ≤ 1) := by
  have hexact : aspectOutOfRangeWith id width height = false
      ↔ (height ≤ 2 * width ∧ width ≤ 2 * height) := by
    rw [aspectOutOfRangeWith_id, aspectOutOfRange_pos width height hh]
    simp only [decide_eq_false_iff_not, not_or, not_lt]
  refine ⟨?_, ?_, ⟨assessImageQualityWith_id st imageData width height channels, hexact⟩,
    mock_quality_range imageData width height channels,
    qualityScoreWith_range fl width height⟩
  · exact mock_quality_eq_iff fl imageData width height channels
  · intro h
    have heq := (mock_quality_eq_iff fl imageData width height channels).mpr h
    have hm : Mock.assessImageQuality imageData width height channels = 1 := by
      obtain ⟨h1, h2, _⟩ := h
      have n2 : ¬ (width < 200 ∨ height < 200) := by omega
      have n4 : ¬ (width < 400 ∨ height < 400) := by omega
      unfold Mock.assessImageQuality
      simp only [n2, n4, if_false]
    have hr : (assessImageQualityWith fl st imageData width height channels).1
        = qualityScoreWith fl width height := rfl
    exact ⟨hm, by rw [hr, ← heq, hm]⟩

/-- Witness for C10 (amended) at a 640 x 480 image with nothing rounded. -/
theorem mock_quality_agrees_iff_witness :
    (Mock.assessImageQuality [] 640 480 3
        = (assessImageQualityWith id State.initial [] 640 480 3).1
      ↔ ((400 : Int) ≤ 640 ∧ (400 : Int) ≤ 480 ∧ aspectOutOfRangeWith id 640 480 = false)) ∧
    ((400 : Int) ≤ 640 ∧ (400 : Int) ≤ 480 ∧ aspectOutOfRangeWith id 640 480 = false →
      Mock.assessImageQuality [] 640 480 3 = 1 ∧
      (assessImageQualityWith id State.initial [] 640 480 3).1 = 1) ∧
    (assessImageQualityWith id State.initial [] 640 480 3
        = assessImageQuality State.initial [] 640 480 3 ∧
      (aspectOutOfRangeWith id 640 480 = false
        ↔ ((480 : Int) ≤ 2 * 640 ∧ (640 : Int) ≤ 2 * 480))) ∧
    (0 < Mock.assessImageQuality [] 640 480 3 ∧ Mock.assessImageQuality [] 640 480 3 ≤ 1) ∧
    (0 < (assessImageQualityWith id State.initial [] 640 480 3).1 ∧
      (assessImageQualityWith id State.initial [] 640 480 3).1 ≤ 1) :=
  mock_quality_agrees_iff id State.initial [] 640 480 3 (by decide) (by decide)

/-! ## Registry: auxiliary facts -/

/-- An engine that `buildEngine` returns is marked initialized, and has no
anti-spoofing component when the anti-spoofing path converts to the empty string. -/
theorem buildEngine_ok (V : Seeta) (d l r a : JString) (engine : SeetaFaceEngine)
    (h : buildEngine V d l r a = .ok engine) :
    engine.initialized = true ∧ (jstring2string a = "" → engine.antiSpoofing = none) := by
  unfold buildEngine at h
  simp only [bind, Except.bind, pure, Except.pure] at h
  split at h
  · cases h
  · split at h
    · cases h
    · split at h
      · cases h
      · split at h
        · rename_i hne
          split at h
          · cases h
          · cases h
            exact ⟨rfl, fun ha => absurd ha hne⟩
        · cases h
          exact ⟨rfl, fun _ => rfl⟩

/-- The two outcomes of `initializeEngine`: a built engine is appended and its index
returned, or the table is kept and `-1` returned. -/
theorem initializeEngine_cases (V : Seeta) (st : State) (d l r a : JString) :
    (∃ engine, buildEngine V d l r a = .ok engine ∧
        initializeEngine V st d l r a
          = ((st.engines.length : Int), { st with engines := st.engines ++ [some engine] })) ∨
    (∃ what, buildEngine V d l r a = .error what ∧
        initializeEngine V st d l r a
          = (-1, { st with
              globalLastError := "Failed to initialize SeetaFace6 engine: " ++ what })) := by
  unfold initializeEngine
  cases hb : buildEngine V d l r a with
  | error what => exact Or.inr ⟨what, rfl, rfl⟩
  | ok engine =>
    refine Or.inl ⟨engine, rfl, ?_⟩
    simp

/-- The call `detectFaces` never changes the engine table. -/
theorem detectFaces_engines (V : Seeta) (st : State) (h : Int) (img : List Int)
    (w ht c : Int) (res : Option (List FloatCell) × State)
    (hres : detectFaces V st h img w ht c = some res) : res.2.engines = st.engines := by
  unfold detectFaces at hres
  split at hres
  · cases hres; rfl
  · split at hres
    · cases hres
    · simp only at hres
      split at hres
      · cases hres
      · split at hres
        · cases hres; rfl
        · cases hres; rfl

/-- The call `extractFaceEncoding` never changes the engine table. -/
theorem extractFaceEncoding_engines (V : Seeta) (st : State) (h : Int) (img : List Int)
    (w ht c fx fy fw fh : Int) (res : Option (List ℚ) × State)
    (hres : extractFaceEncoding V st h img w ht c fx fy fw fh = some res) :
    res.2.engines = st.engines := by
  unfold extractFaceEncoding at hres
  split at hres
  · cases hres; rfl
  · split at hres
    · cases hres
    · simp only at hres
      split at hres
      · cases hres
      · split at hres
        · cases hres; rfl
        · split at hres
          · cases hres
          · split at hres
            · cases hres; rfl
            · cases hres; rfl

/-- The call `detectLiveness` never changes the engine table. -/
theorem detectLiveness_engines (V : Seeta) (st : State) (h : Int) (img : List Int)
    (w ht c fx fy fw fh : Int) (res : ℚ × State)
    (hres : detectLiveness V st h img w ht c fx fy fw fh = some res) :
    res.2.engines = st.engines := by
  unfold detectLiveness at hres
  split at hres
  · cases hres; rfl
  · split at hres
    · cases hres
    · split at hres
      · cases hres; rfl
      · simp only at hres
        split at hres
        · cases hres; rfl
        · cases hres; rfl

/-- The real backend's `compareFaceEncodings` never changes the engine table. -/
theorem compareFaceEncodings_engines (V : Seeta) (st : State) (e1 e2 : List ℚ) :
    (compareFaceEncodings V st e1 e2).2.engines = st.engines := by
  unfold compareFaceEncodings
  split
  · rfl
  · split <;> rfl

/-- Effect of one call on the table: either one occupied slot is appended and its
index issued, or no handle is issued and the table is kept up to one slot being
reset to null. -/
theorem step_engines (V : Seeta) (st st1 : State) (op : Op) (issued : Option Int)
    (h : step V st op = some (st1, issued)) :
    (∃ engine, st1.engines = st.engines ++ [some engine] ∧
        issued = some (st.engines.length : Int)) ∨
    (issued = none ∧
      (st1.engines = st.engines ∨ ∃ k : Nat, st1.engines = st.engines.set k none)) := by
  cases op with
  | initializeEngine d l r a =>
    simp only [step, Option.some.injEq, Prod.mk.injEq] at h
    obtain ⟨h1, h2⟩ := h
    rcases initializeEngine_cases V st d l r a with ⟨engine, _, he⟩ | ⟨what, _, he⟩
    · rw [he] at h1 h2
      simp only at h1 h2
      refine Or.inl ⟨engine, ?_, ?_⟩
      · rw [← h1]
      · have hne : ¬ ((st.engines.length : Int) = -1) := by omega
        rw [← h2, if_neg hne]
    · rw [he] at h1 h2
      simp only at h1 h2
      refine Or.inr ⟨?_, Or.inl ?_⟩
      · rw [← h2]; rfl
      · rw [← h1]
  | releaseEngine hd =>
    simp only [step, Option.some.injEq, Prod.mk.injEq] at h
    obtain ⟨h1, h2⟩ := h
    refine Or.inr ⟨h2.symm, ?_⟩
    rw [← h1]
    unfold releaseEngine
    split
    · exact Or.inr ⟨hd.toNat, rfl⟩
    · exact Or.inl rfl
  | detectFaces hd img w ht c =>
    simp only [step, Option.map_eq_some', Prod.mk.injEq] at h
    obtain ⟨res, hres, h1, h2⟩ := h
    refine Or.inr ⟨h2.symm, Or.inl ?_⟩
    rw [← h1]
    exact detectFaces_engines V st hd img w ht c res hres
  | extractFaceEncoding hd img w ht c fx fy fw fh =>
    simp only [step, Option.map_eq_some', Prod.mk.injEq] at h
    obtain ⟨res, hres, h1, h2⟩ := h
    refine Or.inr ⟨h2.symm, Or.inl ?_⟩
    rw [← h1]
    exact extractFaceEncoding_engines V st hd img w ht c fx fy fw fh res hres
  | compareFaceEncodings e1 e2 =>
    simp only [step, Option.some.injEq, Prod.mk.injEq] at h
    obtain ⟨h1, h2⟩ := h
    refine Or.inr ⟨h2.symm, Or.inl ?_⟩
    rw [← h1]
    exact compareFaceEncodings_engines V st e1 e2
  | detectLiveness hd img w ht c fx fy fw fh =>
    simp only [step, Option.map_eq_some', Prod.mk.injEq] at h
    obtain ⟨res, hres, h1, h2⟩ := h
    refine Or.inr ⟨h2.symm, Or.inl ?_⟩
    rw [← h1]
    exact detectLiveness_engines V st hd img w ht c fx fy fw fh res hres
  | assessImageQuality img w ht c =>
    simp only [step, Option.some.injEq, Prod.mk.injEq] at h
    obtain ⟨h1, h2⟩ := h
    refine Or.inr ⟨h2.symm, Or.inl ?_⟩
    rw [← h1]
    rfl
  | getLastError =>
    simp only [step, Option.some.injEq, Prod.mk.injEq] at h
    obtain ⟨h1, h2⟩ := h
    refine Or.inr ⟨h2.symm, Or.inl ?_⟩
    rw [← h1]
    rfl

/-- One call never shrinks the table, issues only the index of a freshly appended
slot, and leaves every existing slot as it was or reset to null. -/
theorem step_invariant (V : Seeta) (st st1 : State) (op : Op) (issued : Option Int)
    (h : step V st op = some (st1, issued)) :
    st.engines.length ≤ st1.engines.length ∧
    (∀ hd, issued = some hd →
      hd = (st.engines.length : Int) ∧ st1.engines.length = st.engines.length + 1) ∧
    (∀ i, i < st.engines.length →
      st1.engines[i]? = st.engines[i]? ∨ st1.engines[i]? = some none) := by
  rcases step_engines V st st1 op issued h with ⟨engine, he, hi⟩ | ⟨hi, he | ⟨k, he⟩⟩
  · refine ⟨?_, ?_, ?_⟩
    · rw [he]; simp
    · intro hd hhd
      rw [hi] at hhd
      cases hhd
      exact ⟨rfl, by rw [he]; simp⟩
    · intro i hlt
      left
      rw [he, List.getElem?_append_left hlt]
  · refine ⟨by rw [he], ?_, ?_⟩
    · intro hd hhd
      rw [hi] at hhd
      cases hhd
    · intro i _
      left
      rw [he]
  · refine ⟨by rw [he]; simp, ?_, ?_⟩
    · intro hd hhd
      rw [hi] at hhd
      cases hhd
    · intro i hlt
      rw [he]
      by_cases hk : k = i
      · right
        subst hk
        simp [hlt]
      · left
        simp [List.getElem?_set, hk]

/-- Along a history the table never shrinks, every handle issued is the index of a
slot appended during the history, and every slot present at the start is either
unchanged or reset to null at the end. -/
theorem run_invariant (V : Seeta) (ops : List Op) :
    ∀ (st st2 : State) (issued : List Int), run V ops st = some (st2, issued) →
      st.engines.length ≤ st2.engines.length ∧
      (∀ hd ∈ issued, (st.engines.length : Int) ≤ hd ∧ hd < (st2.engines.length : Int)) ∧
      (∀ i, i < st.engines.length →
        st2.engines[i]? = st.engines[i]? ∨ st2.engines[i]? = some none) := by
  induction ops with
  | nil =>
    intro st st2 issued h
    simp only [run, Option.some.injEq, Prod.mk.injEq] at h
    obtain ⟨h1, h2⟩ := h
    subst h1
    subst h2
    exact ⟨le_refl _, fun hd hmem => absurd hmem (List.not_mem_nil hd), fun i _ => Or.inl rfl⟩
  | cons op ops ih =>
    intro st st2 issued h
    simp only [run] at h
    cases hs : step V st op with
    | none => rw [hs] at h; cases h
    | some p =>
      obtain ⟨st1, iss⟩ := p
      rw [hs] at h
      simp only at h
      cases hr : run V ops st1 with
      | none => rw [hr] at h; cases h
      | some q =>
        obtain ⟨st2a, rest⟩ := q
        rw [hr] at h
        simp only [Option.some.injEq, Prod.mk.injEq] at h
        obtain ⟨h1, h2⟩ := h
        subst h1
        subst h2
        obtain ⟨s1, s2, s3⟩ := step_invariant V st st1 op iss hs
        obtain ⟨r1, r2, r3⟩ := ih st1 st2a rest hr
        refine ⟨le_trans s1 r1, ?_, ?_⟩
        · intro hd hmem
          rcases List.mem_append.mp hmem with hm | hm
          · cases iss with
            | none => cases hm
            | some x =>
              simp only [Option.toList, List.mem_singleton] at hm
              subst hm
              obtain ⟨e1, e2⟩ := s2 hd rfl
              constructor
              · omega
              · omega
          · obtain ⟨b1, b2⟩ := r2 hd hm
            exact ⟨by omega, b2⟩
        · intro i hlt
          have hlt1 : i < st1.engines.length := lt_of_lt_of_le hlt s1
          rcases r3 i hlt1 with e | e
          · rcases s3 i hlt with f | f
            · exact Or.inl (e.trans f)
            · exact Or.inr (e.trans f)
          · exact Or.inr e

/-- The guard rejects a negative handle, a handle past the end of the table and a
handle whose slot is null. -/
theorem invalidHandle_of_bad (st : State) (h : Int)
    (hbad : h < 0 ∨ (st.engines.length : Int) ≤ h ∨ st.engines[h.toNat]? = some none) :
    invalidHandle st h = true := by
  unfold invalidHandle
  rcases hbad with hb | hb | hb
  · simp [hb]
  · simp [hb]
  · rw [hb]
    simp

/-- A slot reset by `releaseEngine` is still null after any further history. -/
theorem released_stays_null (V : Seeta) (st0 st : State) (h : Int) (ops : List Op)
    (issued : List Int) (h0 : 0 ≤ h) (hlt : h < (st0.engines.length : Int))
    (hrun : run V ops (releaseEngine st0 h) = some (st, issued)) :
    st.engines[h.toNat]? = some none := by
  have hn : h.toNat < st0.engines.length := by omega
  have hrel : (releaseEngine st0 h).engines = st0.engines.set h.toNat none := by
    unfold releaseEngine
    rw [if_pos ⟨h0, hlt⟩]
  have hslot : (releaseEngine st0 h).engines[h.toNat]? = some none := by
    rw [hrel]
    simp [hn]
  have hlen : h.toNat < (releaseEngine st0 h).engines.length := by
    rw [hrel]
    simpa using hn
  obtain ⟨_, _, r3⟩ := run_invariant V ops (releaseEngine st0 h) st issued hrun
  rcases r3 h.toNat hlen with e | e
  · rw [e, hslot]
  · exact e

/-! ## Registry: no call through a null component -/

/-- An engine that `buildEngine` returns has its detector, landmarker and recognizer. -/
theorem buildEngine_complete (V : Seeta) (d l r a : JString) (engine : SeetaFaceEngine)
    (h : buildEngine V d l r a = .ok engine) : engineComplete engine = true := by
  unfold buildEngine at h
  simp only [bind, Except.bind, pure, Except.pure] at h
  split at h
  · cases h
  · split at h
    · cases h
    · split at h
      · cases h
      · split at h
        · split at h
          · cases h
          · cases h
            rfl
        · cases h
          rfl

/-- A handle accepted by the guard designates an engine stored in the table. -/
theorem engineAt_of_valid (st : State) (h : Int) (hv : ¬ (invalidHandle st h = true)) :
    ∃ engine, engineAt st h = some engine ∧ some engine ∈ st.engines := by
  unfold invalidHandle at hv
  unfold engineAt
  cases hm : st.engines[h.toNat]? with
  | none =>
    rw [hm] at hv
    simp at hv
  | some slot =>
    cases slot with
    | none =>
      rw [hm] at hv
      simp at hv
    | some engine => exact ⟨engine, rfl, List.getElem?_mem hm⟩

/-- In a well-formed registry `detectFaces` returns. -/
theorem detectFaces_defined (V : Seeta) (st : State) (hwf : wellFormed st) (h : Int)
    (img : List Int) (w ht c : Int) : (detectFaces V st h img w ht c).isSome = true := by
  unfold detectFaces
  split
  · rfl
  · rename_i hv
    obtain ⟨engine, hat, hmem⟩ := engineAt_of_valid st h hv
    have hc := hwf engine hmem
    unfold engineComplete at hc
    simp only [Bool.and_eq_true] at hc
    obtain ⟨⟨c1, _⟩, _⟩ := hc
    obtain ⟨detector, hd⟩ := Option.isSome_iff_exists.mp c1
    rw [hat]
    simp only [hd]
    split <;> rfl

/-- In a well-formed registry `extractFaceEncoding` returns. -/
theorem extractFaceEncoding_defined (V : Seeta) (st : State) (hwf : wellFormed st) (h : Int)
    (img : List Int) (w ht c fx fy fw fh : Int) :
    (extractFaceEncoding V st h img w ht c fx fy fw fh).isSome = true := by
  unfold extractFaceEncoding
  split
  · rfl
  · rename_i hv
    obtain ⟨engine, hat, hmem⟩ := engineAt_of_valid st h hv
    have hc := hwf engine hmem
    unfold engineComplete at hc
    simp only [Bool.and_eq_true] at hc
    obtain ⟨⟨_, c2⟩, c3⟩ := hc
    obtain ⟨landmarker, hl⟩ := Option.isSome_iff_exists.mp c2
    obtain ⟨recognizer, hr⟩ := Option.isSome_iff_exists.mp c3
    rw [hat]
    simp only [hl, hr]
    split
    · rfl
    · split <;> rfl

/-- The call `detectLiveness` returns whenever the handle is rejected or designates an
engine. -/
theorem detectLiveness_defined (V : Seeta) (st : State) (h : Int)
    (img : List Int) (w ht c fx fy fw fh : Int) :
    (detectLiveness V st h img w ht c fx fy fw fh).isSome = true := by
  unfold detectLiveness
  split
  · rfl
  · rename_i hv
    obtain ⟨engine, hat, _⟩ := engineAt_of_valid st h hv
    rw [hat]
    simp only
    split
    · rfl
    · split <;> rfl

/-- From a well-formed registry every call returns and leaves a well-formed registry. -/
theorem step_defined (V : Seeta) (st : State) (hwf : wellFormed st) (op : Op) :
    ∃ st1 issued, step V st op = some (st1, issued) ∧ wellFormed st1 := by
  have keep : ∀ st1 : State, st1.engines = st.engines → wellFormed st1 := by
    intro st1 he engine hmem
    rw [he] at hmem
    exact hwf engine hmem
  cases op with
  | initializeEngine d l r a =>
    refine ⟨_, _, rfl, ?_⟩
    rcases initializeEngine_cases V st d l r a with ⟨engine, hb, he⟩ | ⟨what, _, he⟩
    · rw [he]
      intro e hmem
      simp only [List.mem_append, List.mem_singleton, Option.some.injEq] at hmem
      rcases hmem with hm | hm
      · exact hwf e hm
      · rw [hm]
        exact buildEngine_complete V d l r a engine hb
    · rw [he]
      exact keep _ rfl
  | releaseEngine hd =>
    refine ⟨_, _, rfl, ?_⟩
    unfold releaseEngine
    split
    · intro e hmem
      rcases List.mem_or_eq_of_mem_set hmem with hm | hm
      · exact hwf e hm
      · cases hm
    · exact hwf
  | detectFaces hd img w ht c =>
    obtain ⟨res, hres⟩ := Option.isSome_iff_exists.mp (detectFaces_defined V st hwf hd img w ht c)
    refine ⟨res.2, none, by simp [step, hres], ?_⟩
    exact keep _ (detectFaces_engines V st hd img w ht c res hres)
  | extractFaceEncoding hd img w ht c fx fy fw fh =>
    obtain ⟨res, hres⟩ := Option.isSome_iff_exists.mp
      (extractFaceEncoding_defined V st hwf hd img w ht c fx fy fw fh)
    refine ⟨res.2, none, by simp [step, hres], ?_⟩
    exact keep _ (extractFaceEncoding_engines V st hd img w ht c fx fy fw fh res hres)
  | compareFaceEncodings e1 e2 =>
    exact ⟨_, _, rfl, keep _ (compareFaceEncodings_engines V st e1 e2)⟩
  | detectLiveness hd img w ht c fx fy fw fh =>
    obtain ⟨res, hres⟩ := Option.isSome_iff_exists.mp
      (detectLiveness_defined V st hd img w ht c fx fy fw fh)
    refine ⟨res.2, none, by simp [step, hres], ?_⟩
    exact keep _ (detectLiveness_engines V st hd img w ht c fx fy fw fh res hres)
  | assessImageQuality img w ht c => exact ⟨_, _, rfl, keep _ rfl⟩
  | getLastError => exact ⟨_, _, rfl, keep _ rfl⟩

/-- Every history of calls from a well-formed registry runs to its end, in a
well-formed registry. -/
theorem run_defined (V : Seeta) (ops : List Op) :
    ∀ st : State, wellFormed st →
      ∃ st2 issued, run V ops st = some (st2, issued) ∧ wellFormed st2 := by
  induction ops with
  | nil => exact fun st hwf => ⟨st, [], rfl, hwf⟩
  | cons op ops ih =>
    intro st hwf
    obtain ⟨st1, iss, hs, hwf1⟩ := step_defined V st hwf op
    obtain ⟨st2, rest, hr, hwf2⟩ := ih st1 hwf1
    refine ⟨st2, iss.toList ++ rest, ?_, hwf2⟩
    simp only [run, hs, hr]

/-- Every history of calls from the initial state runs to its end. -/
theorem run_initial_defined (V : Seeta) (ops : List Op) :
    ∃ st issued, run V ops State.initial = some (st, issued) ∧ wellFormed st :=
  run_defined V ops State.initial (fun _ hmem => absurd hmem (List.not_mem_nil _))

/-! ## Registry: results -/

/-- C6: after any history from the initial state, an initializeEngine call that does
not return -1 returns the table size before the call, appends one occupied slot at
that index, returns a handle different from every handle issued earlier in the
history (released or not), and the guard used by the operations accepts it in the
resulting state. -/
theorem initializeEngine_fresh_handle (V : Seeta) (ops : List Op) (st : State)
    (issued : List Int) (hrun : run V ops State.initial = some (st, issued))
    (d l r a : JString) (hok : (initializeEngine V st d l r a).1 ≠ -1) :
    (initializeEngine V st d l r a).1 = (st.engines.length : Int) ∧
    (∃ engine, (initializeEngine V st d l r a).2.engines = st.engines ++ [some engine]) ∧
    (initializeEngine V st d l r a).1 ∉ issued ∧
    invalidHandle (initializeEngine V st d l r a).2 (initializeEngine V st d l r a).1
      = false := by
  rcases initializeEngine_cases V st d l r a with ⟨engine, hb, he⟩ | ⟨what, _, he⟩
  · rw [he]
    obtain ⟨hinit, _⟩ := buildEngine_ok V d l r a engine hb
    refine ⟨rfl, ⟨engine, rfl⟩, ?_, ?_⟩
    · intro hmem
      obtain ⟨_, r2, _⟩ := run_invariant V ops State.initial st issued hrun
      have := (r2 _ hmem).2
      simp only at this
      omega
    · simp only
      unfold invalidHandle
      simp [hinit]
  · rw [he] at hok
    exact absurd rfl hok

/-- Witness for C6: the second engine created after one create and release. -/
theorem initializeEngine_fresh_handle_witness :
    run sampleSeeta [Op.initializeEngine (some "fd") (some "fl") (some "fr") none,
        Op.releaseEngine 0] State.initial = some (sampleReleased, [0]) ∧
    (initializeEngine sampleSeeta sampleReleased (some "fd") (some "fl") (some "fr") none).1
      ≠ -1 ∧
    ((initializeEngine sampleSeeta sampleReleased (some "fd") (some "fl") (some "fr") none).1
        = (sampleReleased.engines.length : Int) ∧
      (∃ engine,
        (initializeEngine sampleSeeta sampleReleased (some "fd") (some "fl") (some "fr")
            none).2.engines = sampleReleased.engines ++ [some engine]) ∧
      (initializeEngine sampleSeeta sampleReleased (some "fd") (some "fl") (some "fr") none).1
        ∉ [(0 : Int)] ∧
      invalidHandle
        (initializeEngine sampleSeeta sampleReleased (some "fd") (some "fl") (some "fr")
          none).2
        (initializeEngine sampleSeeta sampleReleased (some "fd") (some "fl") (some "fr")
          none).1 = false) :=
  ⟨by decide, by decide,
    initializeEngine_fresh_handle sampleSeeta
      [Op.initializeEngine (some "fd") (some "fl") (some "fr") none, Op.releaseEngine 0]
      sampleReleased [0] (by decide) (some "fd") (some "fl") (some "fr") none (by decide)⟩

/-- C7: for every registry state and every handle, releaseEngine leaves the error
state as it was, releasing twice gives the same state as releasing once, the table
keeps its size, and every slot at an index other than the handle is unchanged. -/
theorem releaseEngine_idempotent_local (st : State) (h : Int) :
    (releaseEngine st h).globalLastError = st.globalLastError ∧
    releaseEngine (releaseEngine st h) h = releaseEngine st h ∧
    (releaseEngine st h).engines.length = st.engines.length ∧
    (∀ i : Nat, (i : Int) ≠ h → (releaseEngine st h).engines[i]? = st.engines[i]?) := by
  by_cases hr : h ≥ 0 ∧ h < (st.engines.length : Int)
  · have e1 : releaseEngine st h = { st with engines := st.engines.set h.toNat none } := by
      unfold releaseEngine
      rw [if_pos hr]
    have hr2 : h ≥ 0 ∧ h < (((st.engines.set h.toNat none).length : Nat) : Int) := by
      rw [List.length_set]
      exact hr
    have e2 : releaseEngine { st with engines := st.engines.set h.toNat none } h
        = { st with engines := (st.engines.set h.toNat none).set h.toNat none } := by
      unfold releaseEngine
      rw [if_pos hr2]
    refine ⟨by rw [e1], ?_, by rw [e1]; simp, ?_⟩
    · rw [e1, e2, List.set_set]
    · intro i hi
      rw [e1]
      have hne : h.toNat ≠ i := by omega
      simp [List.getElem?_set, hne]
  · have e1 : releaseEngine st h = st := by
      unfold releaseEngine
      rw [if_neg hr]
    refine ⟨by rw [e1], by rw [e1, e1], by rw [e1], fun i _ => by rw [e1]⟩

/-- Witness for C7: releasing the first of two slots leaves the second one alone. -/
theorem releaseEngine_idempotent_local_witness :
    ((1 : Nat) : Int) ≠ 0 ∧
    (releaseEngine sampleTwo 0).engines[1]? = sampleTwo.engines[1]? :=
  ⟨by decide, (releaseEngine_idempotent_local sampleTwo 0).2.2.2 1 (by decide)⟩

/-- C8: when the handle is negative, or past the end of the table, or was released
while in range at some earlier point of the history, detectFaces and
extractFaceEncoding return null and detectLiveness returns 0, and the resulting state
is the current one with the error message "Invalid engine handle" written (so the
table is unchanged). -/
theorem invalid_handle_operations_fail (V : Seeta) (st : State) (h : Int)
    (hbad : h < 0 ∨ (st.engines.length : Int) ≤ h ∨
      ∃ (st0 : State) (ops : List Op) (issued : List Int),
        0 ≤ h ∧ h < (st0.engines.length : Int) ∧
        run V ops (releaseEngine st0 h) = some (st, issued))
    (imageData : List Int) (width height channels faceX faceY faceWidth faceHeight : Int) :
    detectFaces V st h imageData width height channels
      = some (none, { st with globalLastError := "Invalid engine handle" }) ∧
    extractFaceEncoding V st h imageData width height channels faceX faceY faceWidth faceHeight
      = some (none, { st with globalLastError := "Invalid engine handle" }) ∧
    detectLiveness V st h imageData width height channels faceX faceY faceWidth faceHeight
      = some (0, { st with globalLastError := "Invalid engine handle" }) := by
  have hinv : invalidHandle st h = true := by
    apply invalidHandle_of_bad
    rcases hbad with hb | hb | ⟨st0, ops, issued, h0, hlt, hrun⟩
    · exact Or.inl hb
    · exact Or.inr (Or.inl hb)
    · exact Or.inr (Or.inr (released_stays_null V st0 st h ops issued h0 hlt hrun))
  refine ⟨?_, ?_, ?_⟩
  · unfold detectFaces
    rw [if_pos hinv]
  · unfold extractFaceEncoding
    rw [if_pos hinv]
  · unfold detectLiveness
    rw [if_pos hinv]

/-- Witness for C8: handle 0 released, then a second engine created. -/
theorem invalid_handle_operations_fail_witness :
    ((0 : Int) < 0 ∨ (sampleTwo.engines.length : Int) ≤ 0 ∨
      ∃ (st0 : State) (ops : List Op) (issued : List Int),
        0 ≤ (0 : Int) ∧ (0 : Int) < (st0.engines.length : Int) ∧
        run sampleSeeta ops (releaseEngine st0 0) = some (sampleTwo, issued)) ∧
    (detectFaces sampleSeeta sampleTwo 0 [] 2 2 3
      = some (none, { sampleTwo with globalLastError := "Invalid engine handle" }) ∧
    extractFaceEncoding sampleSeeta sampleTwo 0 [] 2 2 3 0 0 1 1
      = some (none, { sampleTwo with globalLastError := "Invalid engine handle" }) ∧
    detectLiveness sampleSeeta sampleTwo 0 [] 2 2 3 0 0 1 1
      = some (0, { sampleTwo with globalLastError := "Invalid engine handle" })) :=
  ⟨Or.inr (Or.inr ⟨sampleLive,
      [Op.initializeEngine (some "fd") (some "fl") (some "fr") none], [1],
      by decide, by decide, by decide⟩),
    invalid_handle_operations_fail sampleSeeta sampleTwo 0
      (Or.inr (Or.inr ⟨sampleLive,
        [Op.initializeEngine (some "fd") (some "fl") (some "fr") none], [1],
        by decide, by decide, by decide⟩)) [] 2 2 3 0 0 1 1⟩

/-- C9: if initializeEngine is called with an anti-spoofing path that converts to the
empty string and does not return -1, then after any further history in which the
slot of the returned handle is still occupied, detectLiveness on that handle returns
exactly 1 for every image and face box and stores the non-empty message
"Anti-spoofing not initialized". -/
theorem detectLiveness_without_antiSpoofing (V : Seeta) (st0 : State) (d l r a : JString)
    (ha : jstring2string a = "") (hok : (initializeEngine V st0 d l r a).1 ≠ -1)
    (ops : List Op) (st : State) (issued : List Int)
    (hrun : run V ops (initializeEngine V st0 d l r a).2 = some (st, issued))
    (hlive : ∃ engine,
      st.engines[((initializeEngine V st0 d l r a).1).toNat]? = some (some engine))
    (imageData : List Int) (width height channels faceX faceY faceWidth faceHeight : Int) :
    detectLiveness V st (initializeEngine V st0 d l r a).1 imageData width height channels
        faceX faceY faceWidth faceHeight
      = some (1, { st with globalLastError := "Anti-spoofing not initialized" }) ∧
    ({ st with globalLastError := "Anti-spoofing not initialized" } : State).globalLastError
      ≠ "" := by
  refine ⟨?_, by simp⟩
  rcases initializeEngine_cases V st0 d l r a with ⟨engine, hb, he⟩ | ⟨what, _, he⟩
  · rw [he] at hrun hlive ⊢
    simp only [Int.toNat_ofNat] at hlive ⊢
    obtain ⟨hinit, hanti⟩ := buildEngine_ok V d l r a engine hb
    obtain ⟨r1, _, r3⟩ := run_invariant V ops _ st issued hrun
    simp only [List.length_append, List.length_singleton] at r1 r3
    have hslot0 : (st0.engines ++ [some engine])[st0.engines.length]? = some (some engine) := by
      simp
    obtain ⟨e, hslot⟩ := hlive
    have heq : e = engine := by
      rcases r3 st0.engines.length (by omega) with f | f
      · rw [hslot, hslot0] at f
        simpa using f
      · rw [hslot] at f
        cases f
    subst heq
    have hvalid : invalidHandle st (st0.engines.length : Int) = false := by
      unfold invalidHandle
      have hlt : (st0.engines.length : Int) < (st.engines.length : Int) := by omega
      have hlt2 : st0.engines.length < st.engines.length := by omega
      simp [hslot, hinit, hlt2]
    unfold detectLiveness
    rw [hvalid]
    have hat : engineAt st (st0.engines.length : Int) = some e := by
      unfold engineAt
      simp [hslot]
    simp only [Bool.false_eq_true, if_false, hat, hanti ha]
  · rw [he] at hok
    exact absurd rfl hok

/-- Witness for C9: an engine created with a null anti-spoofing path, after the first
slot was released. -/
theorem detectLiveness_without_antiSpoofing_witness :
    jstring2string none = "" ∧
    (initializeEngine sampleSeeta sampleReleased (some "fd") (some "fl") (some "fr") none).1
      ≠ -1 ∧
    run sampleSeeta [Op.releaseEngine 0, Op.getLastError]
        (initializeEngine sampleSeeta sampleReleased (some "fd") (some "fl") (some "fr")
          none).2 = some (sampleTwo, []) ∧
    (∃ engine,
      sampleTwo.engines[((initializeEngine sampleSeeta sampleReleased (some "fd") (some "fl")
        (some "fr") none).1).toNat]? = some (some engine)) ∧
    (detectLiveness sampleSeeta sampleTwo
        (initializeEngine sampleSeeta sampleReleased (some "fd") (some "fl") (some "fr")
          none).1 [] 2 2 3 0 0 1 1
      = some (1, { sampleTwo with globalLastError := "Anti-spoofing not initialized" }) ∧
    ({ sampleTwo with globalLastError := "Anti-spoofing not initialized" } :
      State).globalLastError ≠ "") :=
  ⟨by decide, by decide, by decide, ⟨sampleEngine, by decide⟩,
    detectLiveness_without_antiSpoofing sampleSeeta sampleReleased (some "fd") (some "fl")
      (some "fr") none (by decide) (by decide) [Op.releaseEngine 0, Op.getLastError]
      sampleTwo [] (by decide) ⟨sampleEngine, by decide⟩ [] 2 2 3 0 0 1 1⟩

/-! ## Mock similarity: auxiliary facts -/

/-- On arrays of equal length the loop adds the three dot products to its
accumulators. -/
theorem accumulate_eq {α : Type} [Field α] (a : List α) :
    ∀ (b : List α) (d n1 n2 : α), a.length = b.length →
      Mock.accumulate a b (d, n1, n2) = (d + dot a b, n1 + dot a a, n2 + dot b b) := by
  induction a with
  | nil =>
    intro b d n1 n2 hlen
    cases b with
    | nil => simp [Mock.accumulate, dot]
    | cons y ys => simp at hlen
  | cons x xs ih =>
    intro b d n1 n2 hlen
    cases b with
    | nil => simp at hlen
    | cons y ys =>
      have hlen2 : xs.length = ys.length := by simpa using hlen
      simp only [Mock.accumulate]
      rw [ih ys _ _ _ hlen2]
      simp only [dot, List.zipWith_cons_cons, List.sum_cons]
      refine Prod.ext ?_ (Prod.ext ?_ ?_) <;> simp only <;> ring

/-- Squared norm of a real vector: never negative. -/
theorem dot_self_nonneg (a : List ℝ) : 0 ≤ dot a a := by
  induction a with
  | nil => simp [dot]
  | cons x xs ih =>
    simp only [dot, List.zipWith_cons_cons, List.sum_cons] at ih ⊢
    nlinarith [mul_self_nonneg x]

/-- Squared norm of a real vector with a non-zero entry: positive. -/
theorem dot_self_pos (a : List ℝ) (ha : ∃ x ∈ a, x ≠ 0) : 0 < dot a a := by
  induction a with
  | nil =>
    obtain ⟨x, hx, _⟩ := ha
    cases hx
  | cons y ys ih =>
    have hys := dot_self_nonneg ys
    simp only [dot, List.zipWith_cons_cons, List.sum_cons] at ih hys ⊢
    obtain ⟨x, hx, hne⟩ := ha
    rcases List.mem_cons.mp hx with hxy | hxys
    · subst hxy
      have : 0 < x * x := mul_self_pos.mpr hne
      linarith
    · have := ih ⟨x, hxys, hne⟩
      nlinarith [mul_self_nonneg y]

/-- Cauchy-Schwarz inequality for real vectors of equal length. -/
theorem dot_sq_le (a : List ℝ) :
    ∀ b : List ℝ, a.length = b.length → dot a b ^ 2 ≤ dot a a * dot b b := by
  induction a with
  | nil =>
    intro b hlen
    cases b with
    | nil => simp [dot]
    | cons y ys => simp at hlen
  | cons x xs ih =>
    intro b hlen
    cases b with
    | nil => simp at hlen
    | cons y ys =>
      have hlen2 : xs.length = ys.length := by simpa using hlen
      have hD := ih ys hlen2
      have h1 := dot_self_nonneg xs
      have h2 := dot_self_nonneg ys
      simp only [dot, List.zipWith_cons_cons, List.sum_cons] at hD h1 h2 ⊢
      generalize (List.zipWith (fun x y => x * y) xs ys).sum = D at hD
      generalize (List.zipWith (fun x y => x * y) xs xs).sum = N1 at hD h1
      generalize (List.zipWith (fun x y => x * y) ys ys).sum = N2 at hD h2
      have hcross : 2 * (x * y * D) ≤ x * x * N2 + y * y * N1 := by
        have hnn : 0 ≤ x * x * N2 + y * y * N1 := by
          have := mul_nonneg (mul_self_nonneg x) h2
          have := mul_nonneg (mul_self_nonneg y) h1
          linarith
        have hsq : (2 * (x * y * D)) ^ 2 ≤ (x * x * N2 + y * y * N1) ^ 2 := by
          have hxy : 0 ≤ (x * y) ^ 2 := sq_nonneg _
          have := mul_le_mul_of_nonneg_left hD hxy
          nlinarith [sq_nonneg (x * x * N2 - y * y * N1)]
        exact (abs_le_of_sq_le_sq' hsq hnn).2
      nlinarith

/-- Value returned by the mock comparison over the reals on arrays of equal length. -/
theorem mock_compare_value (st : Mock.MockState) (a b : List ℝ) (hlen : a.length = b.length) :
    Mock.compareFaceEncodings Real.sqrt st a b
      = (JFloat.addOneHalve
          (JFloat.div (dot a b) (Real.sqrt (dot a a) * Real.sqrt (dot b b))), st) := by
  unfold Mock.compareFaceEncodings
  rw [if_neg (by simpa using hlen), accumulate_eq a b 0 0 0 hlen]
  simp

/-- Mock comparison of two non-zero real vectors of equal length: a finite value. -/
theorem mock_compare_finite (st : Mock.MockState) (a b : List ℝ) (hlen : a.length = b.length)
    (ha : ∃ x ∈ a, x ≠ 0) (hb : ∃ y ∈ b, y ≠ 0) :
    Mock.compareFaceEncodings Real.sqrt st a b
      = (JFloat.val ((cosine Real.sqrt a b + 1) / 2), st) := by
  rw [mock_compare_value st a b hlen]
  have s1 : 0 < Real.sqrt (dot a a) := Real.sqrt_pos.mpr (dot_self_pos a ha)
  have s2 : 0 < Real.sqrt (dot b b) := Real.sqrt_pos.mpr (dot_self_pos b hb)
  have hne : Real.sqrt (dot a a) * Real.sqrt (dot b b) ≠ 0 := ne_of_gt (mul_pos s1 s2)
  unfold JFloat.div
  rw [if_neg hne]
  rfl

/-- The cosine of two non-zero real vectors of equal length lies in `[-1, 1]`. -/
theorem cosine_bounds (a b : List ℝ) (hlen : a.length = b.length)
    (ha : ∃ x ∈ a, x ≠ 0) (hb : ∃ y ∈ b, y ≠ 0) :
    -1 ≤ cosine Real.sqrt a b ∧ cosine Real.sqrt a b ≤ 1 := by
  have p1 := dot_self_pos a ha
  have p2 := dot_self_pos b hb
  have s1 : 0 < Real.sqrt (dot a a) := Real.sqrt_pos.mpr p1
  have s2 : 0 < Real.sqrt (dot b b) := Real.sqrt_pos.mpr p2
  have hpos : 0 < Real.sqrt (dot a a) * Real.sqrt (dot b b) := mul_pos s1 s2
  have hsq : (Real.sqrt (dot a a) * Real.sqrt (dot b b)) ^ 2 = dot a a * dot b b := by
    rw [mul_pow, Real.sq_sqrt (le_of_lt p1), Real.sq_sqrt (le_of_lt p2)]
  have hcs : dot a b ^ 2 ≤ (Real.sqrt (dot a a) * Real.sqrt (dot b b)) ^ 2 := by
    rw [hsq]
    exact dot_sq_le a b hlen
  obtain ⟨lo, hi⟩ := abs_le_of_sq_le_sq' hcs (le_of_lt hpos)
  unfold cosine
  constructor
  · rw [le_div_iff₀ hpos]
    linarith
  · rw [div_le_one hpos]
    exact hi

/-! ## Mock similarity: results -/

/-- C3: over the reals, for encodings of equal length neither of which is the zero
vector, the mock compareFaceEncodings returns the finite value (cos + 1) / 2 with
cos = (a·b) / (|a|·|b|), leaves the mock state unchanged, and the value lies in
the closed interval [0, 1]. -/
theorem mock_compare_is_remapped_cosine (st : Mock.MockState) (a b : List ℝ)
    (hlen : a.length = b.length) (ha : ∃ x ∈ a, x ≠ 0) (hb : ∃ y ∈ b, y ≠ 0) :
    Mock.compareFaceEncodings Real.sqrt st a b
      = (JFloat.val ((cosine Real.sqrt a b + 1) / 2), st) ∧
    0 ≤ (cosine Real.sqrt a b + 1) / 2 ∧ (cosine Real.sqrt a b + 1) / 2 ≤ 1 := by
  obtain ⟨lo, hi⟩ := cosine_bounds a b hlen ha hb
  refine ⟨mock_compare_finite st a b hlen ha hb, ?_, ?_⟩
  · linarith
  · linarith

/-- Witness for C3 on the encodings (3, 4) and (4, 3). -/
theorem mock_compare_is_remapped_cosine_witness :
    ([3, 4] : List ℝ).length = ([4, 3] : List ℝ).length ∧
    (∃ x ∈ ([3, 4] : List ℝ), x ≠ 0) ∧ (∃ y ∈ ([4, 3] : List ℝ), y ≠ 0) ∧
    (Mock.compareFaceEncodings Real.sqrt {} [3, 4] [4, 3]
        = (JFloat.val ((cosine Real.sqrt [3, 4] [4, 3] + 1) / 2), {}) ∧
      0 ≤ (cosine Real.sqrt [3, 4] [4, 3] + 1) / 2 ∧
      (cosine Real.sqrt [3, 4] [4, 3] + 1) / 2 ≤ 1) :=
  ⟨rfl, ⟨3, by simp, by norm_num⟩, ⟨4, by simp, by norm_num⟩,
    mock_compare_is_remapped_cosine {} [3, 4] [4, 3] rfl ⟨3, by simp, by norm_num⟩
      ⟨4, by simp, by norm_num⟩⟩

/-- C4: over the reals, comparing a non-zero encoding with itself in the mock returns
exactly the finite value 1 and leaves the mock state unchanged. -/
theorem mock_compare_self (st : Mock.MockState) (a : List ℝ) (ha : ∃ x ∈ a, x ≠ 0) :
    Mock.compareFaceEncodings Real.sqrt st a a = (JFloat.val 1, st) := by
  rw [mock_compare_finite st a a rfl ha ha]
  have p := dot_self_pos a ha
  have hs : Real.sqrt (dot a a) * Real.sqrt (dot a a) = dot a a :=
    Real.mul_self_sqrt (le_of_lt p)
  unfold cosine
  rw [hs, div_self (ne_of_gt p)]
  norm_num

/-- Witness for C4 on the encoding (3, 4). -/
theorem mock_compare_self_witness :
    (∃ x ∈ ([3, 4] : List ℝ), x ≠ 0) ∧
    Mock.compareFaceEncodings Real.sqrt {} [3, 4] [3, 4] = (JFloat.val 1, {}) :=
  ⟨⟨3, by simp, by norm_num⟩, mock_compare_self {} [3, 4] ⟨3, by simp, by norm_num⟩⟩

end SeetaFace
